import Mathlib

/-!
Shallow embedding of the media playback orchestrator of the ESP-P4 photo/video
album firmware: the slideshow timing controller (`slideshow_ctrl.c`), the album
navigator (`photo_album.c`), the video playback controller (`video_player.c`)
and the frame-extraction stream adapter (`app_stream_adapter.c`).

Modelling conventions:
- `esp_err_t` becomes the inductive `EspErr`.
- FreeRTOS/esp_timer handles become explicit Boolean/counter fields:
  a periodic timer is modelled by `periodicCount` (number of times
  `esp_timer_start_periodic` was issued without an intervening
  `esp_timer_stop`; the hardware has a single handle, so a count of 2 would
  mean a duplicated periodic start), a one-shot timer by an `armed` flag.
- The timer services themselves are assumed to succeed (their failure is an
  external-collaborator condition); timer expiry is an explicit event applied
  to the state, possible only while the timer is armed/started.
- External collaborators (file manager, image decoder/processor, container
  extractor, task creation) are oracles: their outcome for a given media entry
  is recorded in the entry (`imgResult`, `VidEnv`).
- UI-manager calls that only draw (loading overlay, progress, volume) are not
  tracked; the presentation mode switch is (`uiMode`), as is the last
  successfully displayed image (`displayedImage`).
-/

set_option autoImplicit false

namespace Album

/-- Error codes (`esp_err_t` values used by the modelled code). -/
inductive EspErr where
  | ok
  | fail
  | noMem
  | invalidArg
  | invalidState
  | notFound
  | notSupported
  | timeout
  deriving DecidableEq, Repr

/-- Media kind as returned by `file_manager_get_media_type`. -/
inductive MediaType where
  | image
  | video
  | unknown
  deriving DecidableEq, Repr

/-- UI presentation mode (`ui_manager_switch_mode`). -/
inductive UiMode where
  | image
  | video
  deriving DecidableEq, Repr

/-- Video playback controller states (`video_state_t`). -/
inductive VideoState where
  | stopped
  | playing
  | paused
  | error
  deriving DecidableEq, Repr

/-- Pause reason of the album navigator (`s_pause_reason`). -/
inductive PauseReason where
  | none
  | user
  | usb
  deriving DecidableEq, Repr

/-! ## Slideshow controller (`slideshow_ctrl.c`) -/

/-- State of the slideshow controller (`s_slideshow` in `slideshow_ctrl.c`).
`periodicCount` models the periodic `timer` handle: `esp_timer_start_periodic`
increments it, `esp_timer_stop` resets it to 0; a value ≥ 2 would mean two
periodic timers running concurrently. `idleArmed` models the one-shot
`idle_timer`. -/
structure SlideshowSt where
  is_running : Bool
  manual_control : Bool
  interval_ms : Nat
  periodicCount : Nat
  idleArmed : Bool
  deriving DecidableEq, Repr

/-- `slideshow_ctrl_start`. -/
def slideshow_ctrl_start (s : SlideshowSt) : EspErr × SlideshowSt :=
  if s.is_running then (.ok, s)
  else (.ok, { s with is_running := true, manual_control := false,
                      periodicCount := s.periodicCount + 1 })

/-- `slideshow_ctrl_stop`: stops both timers, clears flags; no-op when not running. -/
def slideshow_ctrl_stop (s : SlideshowSt) : EspErr × SlideshowSt :=
  if !s.is_running then (.ok, s)
  else (.ok, { s with is_running := false, manual_control := false,
                      periodicCount := 0, idleArmed := false })

/-- `slideshow_ctrl_pause`: stops the periodic timer and arms the idle timer. -/
def slideshow_ctrl_pause (s : SlideshowSt) : EspErr × SlideshowSt :=
  if !s.is_running || s.manual_control then (.ok, s)
  else (.ok, { s with manual_control := true, periodicCount := 0, idleArmed := true })

/-- `slideshow_ctrl_resume`. -/
def slideshow_ctrl_resume (s : SlideshowSt) : EspErr × SlideshowSt :=
  if !s.is_running || !s.manual_control then (.ok, s)
  else (.ok, { s with manual_control := false, idleArmed := false,
                      periodicCount := s.periodicCount + 1 })

/-- `slideshow_ctrl_set_interval`: stores the interval; if running and not in
manual control, stops and restarts the periodic timer. -/
def slideshow_ctrl_set_interval (s : SlideshowSt) (ms : Nat) : EspErr × SlideshowSt :=
  let s := { s with interval_ms := ms }
  if s.is_running && !s.manual_control then (.ok, { s with periodicCount := 0 + 1 })
  else (.ok, s)

/-- `slideshow_ctrl_manual_trigger`: pause semantics plus re-arming the idle timer. -/
def slideshow_ctrl_manual_trigger (s : SlideshowSt) : EspErr × SlideshowSt :=
  if !s.is_running then (.invalidState, s)
  else
    let s := (slideshow_ctrl_pause s).2
    (.ok, { s with idleArmed := true })

/-- `slideshow_ctrl_is_running`. -/
def slideshow_ctrl_is_running (s : SlideshowSt) : Bool :=
  s.is_running

/-- Body of `idle_timer_callback` in `slideshow_ctrl.c`. -/
def idle_timer_callback (s : SlideshowSt) : SlideshowSt :=
  if s.manual_control then
    let s := { s with manual_control := false }
    if s.is_running then { s with periodicCount := s.periodicCount + 1 } else s
  else s

/-- Expiry of the one-shot idle timer: only possible while armed; firing
disarms it and runs `idle_timer_callback`. -/
def slideshow_idle_fire (s : SlideshowSt) : SlideshowSt :=
  if s.idleArmed then idle_timer_callback { s with idleArmed := false } else s

/-! ## Frame-extraction stream adapter (`app_stream_adapter.c`) -/

/-- Outcome oracle for starting video playback of one file: result of
`app_extractor_start`, of `xTaskCreate` for the extraction task, and of
`app_extractor_get_video_info` (with the container-reported duration in ms). -/
structure VidEnv where
  extractorStart : EspErr
  taskCreateOk : Bool
  infoOk : Bool
  duration : Nat
  deriving DecidableEq, Repr

/-- Control/lifecycle state of the stream adapter (`app_stream_adapter_t`),
restricted to what the claims need: the `running` flag, whether a media file
has been set, whether the extraction task exists, and the cached stream info. -/
structure Adapter where
  running : Bool
  fileSet : Bool
  taskRunning : Bool
  hasInfo : Bool
  duration : Nat
  deriving DecidableEq, Repr

/-- `app_stream_adapter_stop`: no-op when not running, else stops the
extraction task and the extractor and clears `running`. -/
def app_stream_adapter_stop (a : Adapter) : EspErr × Adapter :=
  if !a.running then (.ok, a)
  else (.ok, { a with taskRunning := false, running := false })

/-- `app_stream_adapter_set_file` (`fileNull` models a NULL `filename`
argument): stops the adapter if running, then records the file and resets the
per-file state. -/
def app_stream_adapter_set_file (a : Adapter) (fileNull : Bool) : EspErr × Adapter :=
  if fileNull then (.invalidArg, a)
  else
    let a := if a.running then (app_stream_adapter_stop a).2 else a
    (.ok, { a with fileSet := true, hasInfo := false, duration := 0 })

/-- `app_stream_adapter_start`: early-out when already running; requires a
file; starts the extractor, caches the video info, then creates the extraction
task (stopping the extractor again if task creation fails). -/
def app_stream_adapter_start (a : Adapter) (env : VidEnv) : EspErr × Adapter :=
  if a.running then (.ok, a)
  else if !a.fileSet then (.invalidState, a)
  else
    let a := { a with hasInfo := false }
    if env.extractorStart ≠ .ok then (env.extractorStart, a)
    else
      let a := if env.infoOk then { a with hasInfo := true, duration := env.duration } else a
      if !env.taskCreateOk then (.fail, a)
      else (.ok, { a with running := true, taskRunning := true })

/-- `app_stream_adapter_pause`: sets the pause event bit; fails when not running. -/
def app_stream_adapter_pause (a : Adapter) : EspErr × Adapter :=
  if !a.running then (.invalidState, a) else (.ok, a)

/-- `app_stream_adapter_resume`: sets the resume event bit; fails when not running. -/
def app_stream_adapter_resume (a : Adapter) : EspErr × Adapter :=
  if !a.running then (.invalidState, a) else (.ok, a)

/-- `app_stream_adapter_get_info`, restricted to the duration output. -/
def app_stream_adapter_get_info (a : Adapter) : EspErr × Nat :=
  if !a.hasInfo then (.notFound, 0) else (.ok, a.duration)

/-! ### Round-robin decode-buffer selection (`decode_jpeg_frame`)

A decode attempt on one container frame either fails in
`jpeg_decoder_get_info` (before the buffer index moves), or advances
`current_buffer` by one modulo `buffer_count` and then either fails in
`jpeg_decoder_process` or succeeds and delivers the frame to the frame
callback. `app_stream_adapter_set_file`/`_start` reset `current_buffer` to
`buffer_count - 1`. -/

/-- Outcome of one decode attempt in `decode_jpeg_frame`. -/
inductive DecodeOutcome where
  | infoFail
  | procFail
  | success
  deriving DecidableEq, Repr

/-- Effect of one decode attempt on `current_buffer`: the index advances by
exactly one modulo `buffer_count` once `jpeg_decoder_get_info` has succeeded. -/
def decodeStep (bufCount : Nat) (cur : Nat) (o : DecodeOutcome) : Nat :=
  match o with
  | .infoFail => cur
  | _ => (cur + 1) % bufCount

/-- `current_buffer` after a list of decode attempts, starting from the reset
value `buffer_count - 1` set by `app_stream_adapter_set_file`/`_start`. -/
def bufferAfter (bufCount : Nat) (os : List DecodeOutcome) : Nat :=
  os.foldl (decodeStep bufCount) (bufCount - 1)

/-- Buffer selected by attempt `i` of a trace (meaningful when attempt `i`
passed `jpeg_decoder_get_info`): one step past the index left by the first
`i` attempts. -/
def usedBuffer (bufCount : Nat) (os : List DecodeOutcome) (i : Nat) : Nat :=
  (bufferAfter bufCount (os.take i) + 1) % bufCount

/-! ## Video playback controller (`video_player.c`) -/

/-- State of the video playback controller (`s_video`): `inited` is
`s_video.adapter != NULL`, `fileStored` is `current_file[0] != 0`,
`finishArmed`/`finishDue` model the one-shot completion timer. -/
structure VP where
  inited : Bool
  state : VideoState
  hasError : Bool
  finished : Bool
  fileStored : Bool
  finishArmed : Bool
  finishDue : Nat
  adp : Adapter
  deriving DecidableEq, Repr

/-- `video_player_play`. -/
def video_player_play (v : VP) (env : VidEnv) : EspErr × VP :=
  if !v.inited then (.invalidState, v)
  else
    let v := { v with fileStored := true, hasError := false }
    let sf := app_stream_adapter_set_file v.adp false
    let v := { v with adp := sf.2 }
    if sf.1 ≠ .ok then (sf.1, { v with hasError := true, state := .error })
    else
      let st := app_stream_adapter_start v.adp env
      let v := { v with adp := st.2 }
      if st.1 = .ok then
        let v := { v with state := .playing, finished := false }
        let gi := app_stream_adapter_get_info v.adp
        if gi.1 = .ok ∧ gi.2 > 0 then
          (.ok, { v with finishArmed := true, finishDue := gi.2 + 500 })
        else (.ok, v)
      else (st.1, { v with hasError := true, state := .error })

/-- `video_player_switch_file` (`fileNull` models a NULL `mp4_file`). The
adapter is soft-stopped first when the state is not `Stopped`. -/
def video_player_switch_file (v : VP) (fileNull : Bool) (env : VidEnv) : EspErr × VP :=
  if !v.inited then (.invalidState, v)
  else if fileNull then (.invalidArg, v)
  else
    let a0 := if v.state ≠ .stopped then (app_stream_adapter_stop v.adp).2 else v.adp
    let v := { v with fileStored := true, finishArmed := false,
                      hasError := false, finished := false, adp := a0 }
    let sf := app_stream_adapter_set_file v.adp false
    let v := { v with adp := sf.2 }
    if sf.1 ≠ .ok then (sf.1, { v with hasError := true, state := .error })
    else
      let st := app_stream_adapter_start v.adp env
      let v := { v with adp := st.2 }
      if st.1 = .ok then
        let v := { v with state := .playing }
        let gi := app_stream_adapter_get_info v.adp
        if gi.1 = .ok ∧ gi.2 > 0 then
          (.ok, { v with finishArmed := true, finishDue := gi.2 + 500 })
        else (.ok, v)
      else (st.1, { v with hasError := true, state := .error })

/-- `video_player_stop`: from any state; stops the adapter and cancels the
completion timer. -/
def video_player_stop (v : VP) : EspErr × VP :=
  if v.inited && v.state ≠ .stopped then
    let v := { v with state := .stopped, finished := true, hasError := false }
    let v := { v with adp := (app_stream_adapter_stop v.adp).2 }
    (.ok, { v with finishArmed := false })
  else (.ok, v)

/-- `video_player_pause`. -/
def video_player_pause (v : VP) : EspErr × VP :=
  if v.state = .playing then
    let r := app_stream_adapter_pause v.adp
    let v := { v with adp := r.2 }
    if r.1 = .ok then (r.1, { v with state := .paused })
    else (r.1, { v with hasError := true, state := .error })
  else (.ok, v)

/-- `video_player_resume`. -/
def video_player_resume (v : VP) : EspErr × VP :=
  if v.state = .paused then
    let r := app_stream_adapter_resume v.adp
    let v := { v with adp := r.2 }
    if r.1 = .ok then (r.1, { v with state := .playing })
    else (r.1, { v with hasError := true, state := .error })
  else (.ok, v)

/-- `video_player_get_state`. -/
def video_player_get_state (v : VP) : VideoState :=
  v.state

/-! ## Album navigator (`photo_album.c`) -/

/-- One entry of the media collection (`image_file_info_t`), together with the
external-collaborator outcomes for loading it: `imgResult` is the combined
result of `file_manager_load_image` / `image_decoder_decode` /
`image_processor_process` / `ui_manager_display_image` for an image entry
(`.ok` when the whole chain succeeds), and `vid` is the oracle for starting
video playback of the entry. `name` stands for the filename (used by
`photo_album_refresh` to re-locate the current file). -/
structure MediaEntry where
  name : Nat
  mediaType : MediaType
  fileSize : Nat
  imgResult : EspErr
  vid : VidEnv
  deriving DecidableEq, Repr

/-- Whole-system state: the album (`s_album` plus `s_pause_reason`), the
slideshow controller, the video player (with its adapter), and the UI
presentation mode. `displayedImage` records the last successfully displayed
image index; `softSwitches` counts calls to `video_player_switch_file` made by
the navigator (instrumentation for stating when the soft-switch path is taken). -/
structure Sys where
  initialized : Bool
  files : List MediaEntry
  current_index : Nat
  pauseReason : PauseReason
  ss : SlideshowSt
  vp : VP
  uiMode : UiMode
  displayedImage : Option Nat
  softSwitches : Nat
  deriving DecidableEq, Repr

/-- `validate_file_for_decoding`: file size must be within (100 B, 10 MB]
bounds (`> 10*1024*1024` rejected, `< 100` rejected). -/
def validate_file_for_decoding (e : MediaEntry) : Bool :=
  !(decide (e.fileSize > 10 * 1024 * 1024)) && !(decide (e.fileSize < 100))

/-- `load_and_display_image`: bounds guard, size validation, then the external
load/decode/process/display chain (collapsed into `imgResult`); on success,
restarts the slideshow timer if it is stopped and no pause reason is active,
and updates `current_index`. -/
def load_and_display_image (s : Sys) (index : Nat) : EspErr × Sys :=
  match s.files.get? index with
  | Option.none => (.invalidArg, s)
  | Option.some e =>
    if !validate_file_for_decoding e then (.invalidArg, s)
    else if e.imgResult ≠ .ok then (e.imgResult, s)
    else
      let s := if !s.ss.is_running && s.pauseReason = .none then
                 { s with ss := (slideshow_ctrl_start s.ss).2 }
               else s
      (.ok, { s with current_index := index, displayedImage := some index })

/-- Retry loop of `load_and_display_media`: `wasPlaying` is the
`is_currently_playing_video` flag captured once before the loop; the budget
argument is `max_retries - retry_count`. Returns the result, the final state,
and the number of loop iterations (load attempts) performed. -/
def ladm_loop (wasPlaying : Bool) : Nat → Sys → Nat → EspErr × Sys × Nat
  | 0, s, _ => (.notFound, s, 0)
  | b + 1, s, idx =>
    match s.files.get? idx with
    | Option.none => (.invalidArg, s, 0)
    | Option.some e =>
      match e.mediaType with
      | .video =>
        let s := if wasPlaying then { s with softSwitches := s.softSwitches + 1 }
                 else { s with uiMode := .video, ss := (slideshow_ctrl_stop s.ss).2 }
        let r := if wasPlaying then video_player_switch_file s.vp false e.vid
                 else video_player_play s.vp e.vid
        let s := { s with vp := r.2 }
        if r.1 = .ok then (r.1, { s with current_index := idx }, 1)
        else
          let s := if !wasPlaying then { s with uiMode := .image } else s
          let rec_ := ladm_loop wasPlaying b s ((idx + 1) % s.files.length)
          (rec_.1, rec_.2.1, rec_.2.2 + 1)
      | .image =>
        let s := { s with uiMode := .image }
        let r := load_and_display_image s idx
        if r.1 = .ok then (.ok, r.2, 1)
        else
          let rec_ := ladm_loop wasPlaying b r.2 ((idx + 1) % r.2.files.length)
          (rec_.1, rec_.2.1, rec_.2.2 + 1)
      | .unknown =>
        let rec_ := ladm_loop wasPlaying b s ((idx + 1) % s.files.length)
        (rec_.1, rec_.2.1, rec_.2.2 + 1)

/-- `load_and_display_media`: bounds guard, then the bounded retry-skip loop
(`max_retries = total_count`). -/
def load_and_display_media (s : Sys) (index : Nat) : EspErr × Sys × Nat :=
  if index ≥ s.files.length then (.invalidArg, s, 0)
  else
    let wasPlaying := video_player_get_state s.vp = .playing ∨
                      video_player_get_state s.vp = .paused
    ladm_loop (decide wasPlaying) s.files.length s index

/-- `photo_album_next`: stops a playing/paused video (switching the UI back to
image mode), then loads the `+1 mod count` candidate with retry-skip. -/
def photo_album_next (s : Sys) : EspErr × Sys × Nat :=
  if !s.initialized || s.files.length = 0 then (.invalidState, s, 0)
  else
    let s := if video_player_get_state s.vp = .playing ∨
                video_player_get_state s.vp = .paused then
               { s with uiMode := .image, vp := (video_player_stop s.vp).2 }
             else s
    load_and_display_media s ((s.current_index + 1) % s.files.length)

/-- Outer retry loop of `photo_album_prev`: every iteration calls
`load_and_display_media` on the candidate and on failure steps the candidate
back by one (mod count). Attempt counts of the inner calls accumulate. -/
def prev_loop : Nat → Sys → Nat → EspErr × Sys × Nat
  | 0, s, _ => (.notFound, s, 0)
  | b + 1, s, idx =>
    let r := load_and_display_media s idx
    if r.1 = .ok then (.ok, r.2.1, r.2.2)
    else
      let n := r.2.1.files.length
      let rec_ := prev_loop b r.2.1 ((idx + n - 1) % n)
      (rec_.1, rec_.2.1, r.2.2 + rec_.2.2)

/-- `photo_album_prev`: stops a playing/paused video, then runs its own
bounded retry loop (budget `count`) around `load_and_display_media`. -/
def photo_album_prev (s : Sys) : EspErr × Sys × Nat :=
  if !s.initialized || s.files.length = 0 then (.invalidState, s, 0)
  else
    let s := if video_player_get_state s.vp = .playing ∨
                video_player_get_state s.vp = .paused then
               { s with uiMode := .image, vp := (video_player_stop s.vp).2 }
             else s
    let n := s.files.length
    prev_loop n s ((s.current_index + n - 1) % n)

/-- `photo_album_goto`: index-range guard (signed, as in the C code), then
`load_and_display_media`. -/
def photo_album_goto (s : Sys) (index : Int) : EspErr × Sys × Nat :=
  if !s.initialized || index < 0 || index ≥ (s.files.length : Int) then (.invalidArg, s, 0)
  else load_and_display_media s index.toNat

/-- `photo_album_pause`: records the `UserInteraction` reason and pauses the
slideshow controller (idle timer armed). -/
def photo_album_pause (s : Sys) : EspErr × Sys :=
  if !s.initialized then (.invalidState, s)
  else
    let s := { s with pauseReason := .user }
    let r := slideshow_ctrl_pause s.ss
    (r.1, { s with ss := r.2 })

/-- `photo_album_pause_for_usb`: records the USB reason and fully stops the
slideshow controller (no idle timer). -/
def photo_album_pause_for_usb (s : Sys) : EspErr × Sys :=
  if !s.initialized then (.invalidState, s)
  else
    let s := { s with pauseReason := .usb }
    let r := slideshow_ctrl_stop s.ss
    (r.1, { s with ss := r.2 })

/-- `photo_album_resume`: branches on the stored reason (USB → full restart,
otherwise → controller-level resume). -/
def photo_album_resume (s : Sys) : EspErr × Sys :=
  if !s.initialized then (.invalidState, s)
  else if s.pauseReason = .usb then
    let s := { s with pauseReason := .none }
    let r := slideshow_ctrl_start s.ss
    (r.1, { s with ss := r.2 })
  else
    let s := { s with pauseReason := .none }
    let r := slideshow_ctrl_resume s.ss
    (r.1, { s with ss := r.2 })

/-- `photo_album_is_paused`: true before init, else the negation of
`slideshow_ctrl_is_running`. -/
def photo_album_is_paused (s : Sys) : Bool :=
  if !s.initialized then true
  else !slideshow_ctrl_is_running s.ss

/-- `photo_album_refresh`: rescan (the scan outcome is the `newFiles`
parameter), re-locate the previous file by name (fallback index 0), clamp the
index modulo the new count, and — only when not paused — redisplay the current
entry. Returns the attempt count of the redisplay (0 when skipped). -/
def photo_album_refresh (s : Sys) (newFiles : List MediaEntry) : EspErr × Sys × Nat :=
  if !s.initialized then (.invalidState, s, 0)
  else
    let oldName : Option Nat := (s.files.get? s.current_index).map (fun e => e.name)
    let s := { s with files := newFiles }
    let newIdx : Nat :=
      match oldName with
      | Option.some nm =>
        match s.files.findIdx? (fun e => e.name = nm) with
        | Option.some i => i
        | Option.none => 0
      | Option.none => 0
    let s := { s with current_index :=
                 if s.files.length > 0 then newIdx % s.files.length else 0 }
    if !photo_album_is_paused s then
      let r := load_and_display_media s s.current_index
      (.ok, r.2.1, r.2.2)
    else (.ok, s, 0)

/-! ## Timer expiry events -/

/-- Expiry of the slideshow idle timer, lifted to the whole system (the
callback touches only the slideshow controller state). -/
def idle_fire (s : Sys) : Sys :=
  { s with ss := slideshow_idle_fire s.ss }

/-- Expiry of the periodic slideshow timer (`slideshow_timer_callback`):
possible only while the periodic timer is started; the callback invokes the
next-callback (`photo_album_next`) when running and not in manual control. -/
def slideshow_periodic_fire (s : Sys) : Sys :=
  if s.ss.periodicCount = 0 then s
  else if s.ss.is_running && !s.ss.manual_control then (photo_album_next s).2.1
  else s

/-- Body of `video_finish_timer_cb` in `video_player.c`: restart the slideshow
timer, then advance to the next media entry. -/
def video_finish_timer_cb (s : Sys) : Sys :=
  let s := { s with ss := (slideshow_ctrl_start s.ss).2 }
  (photo_album_next s).2.1

/-- Expiry of the one-shot video completion timer: only possible while armed;
firing disarms it and runs `video_finish_timer_cb`. -/
def finish_fire (s : Sys) : Sys :=
  if s.vp.finishArmed then
    video_finish_timer_cb { s with vp := { s.vp with finishArmed := false } }
  else s

/-- The spontaneous (time-driven) events of the modelled system. -/
inductive TimerEvent where
  | idle
  | periodic
  | finish
  deriving DecidableEq, Repr

/-- Apply one timer event. -/
def timerStep (s : Sys) : TimerEvent → Sys
  | .idle => idle_fire s
  | .periodic => slideshow_periodic_fire s
  | .finish => finish_fire s

/-- Apply a sequence of timer events (elapsed time with no API calls). -/
def timerRun (s : Sys) (es : List TimerEvent) : Sys :=
  es.foldl timerStep s

/-! ## Entry classification -/

/-- An image entry that loads and displays successfully. -/
def goodImage (e : MediaEntry) : Prop :=
  e.mediaType = .image ∧ validate_file_for_decoding e = true ∧ e.imgResult = .ok

/-- A video entry whose playback pipeline starts successfully. -/
def goodVideo (e : MediaEntry) : Prop :=
  e.mediaType = .video ∧ e.vid.extractorStart = .ok ∧ e.vid.taskCreateOk = true

/-- An entry that loads successfully (the retry-skip loop stops on it). -/
def entryLoads (e : MediaEntry) : Prop :=
  goodImage e ∨ goodVideo e

/-- An entry on which every load attempt fails (corrupt, unsupported, out of
size bounds, or unplayable). -/
def entryFails (e : MediaEntry) : Prop :=
  match e.mediaType with
  | .unknown => True
  | .image => ¬ (validate_file_for_decoding e = true ∧ e.imgResult = .ok)
  | .video => ¬ (e.vid.extractorStart = .ok ∧ e.vid.taskCreateOk = true)

instance : DecidablePred goodImage := fun e => by unfold goodImage; infer_instance

instance : DecidablePred goodVideo := fun e => by unfold goodVideo; infer_instance

instance : DecidablePred entryLoads := fun e => by unfold entryLoads; infer_instance

instance : DecidablePred entryFails := fun e => by
  unfold entryFails
  cases e.mediaType <;> infer_instance

/-! ## Concrete fixtures (used by witnesses and counterexamples) -/

/-- A slideshow controller in the `Running` state. -/
def ssRunning : SlideshowSt :=
  { is_running := true, manual_control := false, interval_ms := 5000,
    periodicCount := 1, idleArmed := false }

/-- A slideshow controller in the `Stopped` state. -/
def ssStopped : SlideshowSt :=
  { is_running := false, manual_control := false, interval_ms := 5000,
    periodicCount := 0, idleArmed := false }

/-- A freshly initialized stream adapter. -/
def adp0 : Adapter :=
  { running := false, fileSet := false, taskRunning := false,
    hasInfo := false, duration := 0 }

/-- A freshly initialized video player (adapter allocated, nothing playing). -/
def vp0 : VP :=
  { inited := true, state := .stopped, hasError := false, finished := false,
    fileStored := false, finishArmed := false, finishDue := 0, adp := adp0 }

/-- A video-start oracle where everything succeeds and the container reports a
3000 ms duration. -/
def goodEnv : VidEnv :=
  { extractorStart := .ok, taskCreateOk := true, infoOk := true, duration := 3000 }

/-- A video-start oracle where `app_extractor_start` fails. -/
def badEnv : VidEnv :=
  { extractorStart := .fail, taskCreateOk := true, infoOk := false, duration := 0 }

/-- A valid image entry. -/
def imgOk (nm : Nat) : MediaEntry :=
  { name := nm, mediaType := .image, fileSize := 1000, imgResult := .ok, vid := goodEnv }

/-- A corrupt image entry (decoder rejects it). -/
def imgCorrupt (nm : Nat) : MediaEntry :=
  { name := nm, mediaType := .image, fileSize := 1000, imgResult := .notSupported, vid := goodEnv }

/-- A playable video entry (3000 ms duration). -/
def vidOk (nm : Nat) : MediaEntry :=
  { name := nm, mediaType := .video, fileSize := 1000, imgResult := .fail, vid := goodEnv }

/-- A started system over the given collection: initialized, slideshow
running, nothing playing, entry 0 displayed. -/
def sysOn (fs : List MediaEntry) : Sys :=
  { initialized := true, files := fs, current_index := 0, pauseReason := .none,
    ss := ssRunning, vp := vp0, uiMode := .image, displayedImage := some 0,
    softSwitches := 0 }

/-! ## C2: round-robin decode buffers -/

/-- C2: the buffer index advances by exactly one modulo the buffer count
before each decode (once past `jpeg_decoder_get_info`), so two consecutive
decode attempts that both succeed — i.e. two consecutive successfully decoded
frames delivered to the frame callback — are always placed in different
buffers of the two-buffer pair. -/
theorem c2_round_robin_buffers :
    (∀ (cur : Nat) (o : DecodeOutcome), o ≠ .infoFail →
      decodeStep 2 cur o = (cur + 1) % 2) ∧
    ∀ (os : List DecodeOutcome) (i : Nat),
      os.get? i = some .success → os.get? (i + 1) = some .success →
      usedBuffer 2 os i ≠ usedBuffer 2 os (i + 1) := by
  constructor
  · intro cur o ho
    cases o
    · exact absurd rfl ho
    · rfl
    · rfl
  · intro os i hi _
    unfold usedBuffer
    have ht : os.take (i + 1) = os.take i ++ [DecodeOutcome.success] := by
      rw [List.get?_eq_getElem?] at hi
      rw [List.take_succ, hi]
      rfl
    rw [ht]
    unfold bufferAfter
    rw [List.foldl_append]
    simp only [List.foldl_cons, List.foldl_nil, decodeStep]
    omega

/-- Witness for C2 at a concrete trace of two consecutive successful decodes. -/
theorem c2_round_robin_buffers_witness :
    usedBuffer 2 [DecodeOutcome.success, DecodeOutcome.success] 0 ≠
      usedBuffer 2 [DecodeOutcome.success, DecodeOutcome.success] 1 :=
  c2_round_robin_buffers.2 [DecodeOutcome.success, DecodeOutcome.success] 0 rfl rfl

/-! ## C5: repeated manual triggers -/

/-- Iterated `slideshow_ctrl_manual_trigger` (repeated swipes within the idle
window: each call happens while the idle timer is still armed). -/
def manual_trigger_iter : Nat → SlideshowSt → SlideshowSt
  | 0, s => s
  | k + 1, s => manual_trigger_iter k (slideshow_ctrl_manual_trigger s).2

theorem manual_trigger_iter_fixed (k : Nat) (iv : Nat) :
    manual_trigger_iter k ⟨true, true, iv, 0, true⟩ = ⟨true, true, iv, 0, true⟩ := by
  induction k with
  | zero => rfl
  | succ k ih => exact ih

/-- C5: starting from the running state, any number of repeated
`manual_trigger` calls leaves the slideshow paused (periodic timer stopped and
not restarted) with the idle timer armed, and at no intermediate point is the
periodic timer started more than once (no duplicate periodic timers). -/
theorem c5_repeated_manual_trigger (s : SlideshowSt)
    (hr : s.is_running = true) (hm : s.manual_control = false)
    (hp : s.periodicCount = 1) (hi : s.idleArmed = false) (k : Nat) :
    (manual_trigger_iter (k + 1) s).is_running = true ∧
    (manual_trigger_iter (k + 1) s).manual_control = true ∧
    (manual_trigger_iter (k + 1) s).periodicCount = 0 ∧
    (manual_trigger_iter (k + 1) s).idleArmed = true ∧
    ∀ j, (manual_trigger_iter j s).periodicCount ≤ 1 := by
  obtain ⟨ir, mc, iv, pc, ia⟩ := s
  cases hr; cases hm; cases hp; cases hi
  have h1 : (slideshow_ctrl_manual_trigger ⟨true, false, iv, 1, false⟩).2 =
      ⟨true, true, iv, 0, true⟩ := rfl
  have hiter : ∀ j, manual_trigger_iter (j + 1) ⟨true, false, iv, 1, false⟩ =
      ⟨true, true, iv, 0, true⟩ := by
    intro j
    show manual_trigger_iter j (slideshow_ctrl_manual_trigger _).2 = _
    rw [h1, manual_trigger_iter_fixed]
  refine ⟨by rw [hiter], by rw [hiter], by rw [hiter], by rw [hiter], ?_⟩
  intro j
  cases j with
  | zero => exact Nat.le_refl 1
  | succ j => rw [hiter]; exact Nat.zero_le 1

/-- Witness for C5: two repeated triggers on the concrete running controller. -/
theorem c5_repeated_manual_trigger_witness :
    (manual_trigger_iter 2 ssRunning).periodicCount = 0 ∧
    (manual_trigger_iter 2 ssRunning).idleArmed = true :=
  ⟨(c5_repeated_manual_trigger ssRunning rfl rfl rfl rfl 1).2.2.1,
   (c5_repeated_manual_trigger ssRunning rfl rfl rfl rfl 1).2.2.2.1⟩

/-! ## C7: goto out of range -/

/-- C7: `photo_album_goto i` for `i` outside `[0, count)` fails with
`InvalidArgument` and leaves the whole album state unchanged. -/
theorem c7_goto_out_of_range (s : Sys) (i : Int)
    (h : i < 0 ∨ (s.files.length : Int) ≤ i) :
    photo_album_goto s i = (.invalidArg, s, 0) := by
  have hc : (!s.initialized || decide (i < 0) ||
      decide (i ≥ (s.files.length : Int))) = true := by
    simp only [Bool.or_eq_true, decide_eq_true_eq]
    rcases h with h | h
    · exact Or.inl (Or.inr h)
    · exact Or.inr h
  unfold photo_album_goto
  rw [if_pos hc]

/-- Witness for C7: `goto (-1)` on a concrete two-entry album. -/
theorem c7_goto_out_of_range_witness :
    photo_album_goto (sysOn [imgOk 0, imgOk 1]) (-1) =
      (.invalidArg, sysOn [imgOk 0, imgOk 1], 0) :=
  c7_goto_out_of_range (sysOn [imgOk 0, imgOk 1]) (-1) (Or.inl (by decide))

/-! ## Video-player error-path lemmas -/

theorem adapter_set_file_spec (a : Adapter) :
    (app_stream_adapter_set_file a false).1 = .ok ∧
    (app_stream_adapter_set_file a false).2.running = false ∧
    (app_stream_adapter_set_file a false).2.fileSet = true := by
  unfold app_stream_adapter_set_file app_stream_adapter_stop
  split_ifs <;> simp_all

theorem adapter_start_ok (a : Adapter) (env : VidEnv) (ha : a.running = false)
    (h : (app_stream_adapter_start a env).1 = .ok) :
    (app_stream_adapter_start a env).2.running = true ∧
    (app_stream_adapter_start a env).2.taskRunning = true := by
  unfold app_stream_adapter_start at h ⊢
  split_ifs at h ⊢ <;> simp_all

theorem video_player_play_error (v : VP) (env : VidEnv)
    (h : (video_player_play v env).1 ≠ .ok) :
    (video_player_play v env).2.state = .error ∨
      ((video_player_play v env).1 = .invalidState ∧ (video_player_play v env).2 = v) := by
  by_cases hv : v.inited = true
  · simp only [video_player_play, hv, Bool.not_true, Bool.false_eq_true, if_false] at h ⊢
    have hsf := (adapter_set_file_spec v.adp).1
    simp only [hsf, ne_eq, not_true_eq_false, if_false, not_false_eq_true, if_true] at h ⊢
    by_cases hst : (app_stream_adapter_start
        (app_stream_adapter_set_file v.adp false).2 env).1 = .ok
    · simp only [hst, if_true] at h ⊢
      split at h <;> simp_all
    · rw [if_neg hst] at h ⊢
      exact Or.inl rfl
  · simp only [Bool.not_eq_true] at hv
    have hred : video_player_play v env = (.invalidState, v) := by
      simp only [video_player_play, hv, Bool.not_false, if_true]
    rw [hred]
    exact Or.inr ⟨rfl, rfl⟩

theorem video_player_play_success (v : VP) (env : VidEnv)
    (h : (video_player_play v env).1 = .ok) :
    (video_player_play v env).2.state = .playing ∧
      (video_player_play v env).2.adp.running = true ∧
      (video_player_play v env).2.adp.taskRunning = true := by
  by_cases hv : v.inited = true
  · simp only [video_player_play, hv, Bool.not_true, Bool.false_eq_true, if_false] at h ⊢
    have hsf := (adapter_set_file_spec v.adp).1
    simp only [hsf, ne_eq, not_true_eq_false, if_false, not_false_eq_true, if_true] at h ⊢
    by_cases hst : (app_stream_adapter_start
        (app_stream_adapter_set_file v.adp false).2 env).1 = .ok
    · have hrun := adapter_start_ok (app_stream_adapter_set_file v.adp false).2 env
        (adapter_set_file_spec v.adp).2.1 hst
      rw [if_pos hst] at h ⊢
      split <;> simp_all
    · rw [if_neg hst] at h
      exact absurd h hst
  · simp only [Bool.not_eq_true] at hv
    have hred : video_player_play v env = (.invalidState, v) := by
      simp only [video_player_play, hv, Bool.not_false, if_true]
    rw [hred] at h
    exact absurd h (by simp)

theorem video_player_switch_error (v : VP) (env : VidEnv) (fileNull : Bool)
    (h : (video_player_switch_file v fileNull env).1 ≠ .ok) :
    (video_player_switch_file v fileNull env).2.state = .error ∨
      (video_player_switch_file v fileNull env).2 = v := by
  by_cases hv : v.inited = true
  · by_cases hnull : fileNull = true
    · have hred : video_player_switch_file v fileNull env = (.invalidArg, v) := by
        simp only [video_player_switch_file, hv, hnull, Bool.not_true, Bool.false_eq_true,
          if_false, if_true]
      rw [hred]
      exact Or.inr rfl
    · simp only [Bool.not_eq_true] at hnull
      simp only [video_player_switch_file, hv, hnull, Bool.not_true, Bool.false_eq_true,
        if_false] at h ⊢
      by_cases hstop : v.state = VideoState.stopped
      · simp only [hstop, ne_eq, not_true_eq_false, if_false, eq_self_iff_true] at h ⊢
        have hsf := (adapter_set_file_spec v.adp).1
        simp only [hsf, ne_eq, not_true_eq_false, if_false, not_false_eq_true, if_true] at h ⊢
        by_cases hst : (app_stream_adapter_start
            (app_stream_adapter_set_file v.adp false).2 env).1 = .ok
        · rw [if_pos hst] at h ⊢
          split at h <;> simp_all
        · rw [if_neg hst] at h ⊢
          exact Or.inl rfl
      · simp only [ne_eq, hstop, not_false_eq_true, if_true] at h ⊢
        have hsf := (adapter_set_file_spec (app_stream_adapter_stop v.adp).2).1
        simp only [hsf, ne_eq, not_true_eq_false, if_false, not_false_eq_true, if_true] at h ⊢
        by_cases hst : (app_stream_adapter_start
            (app_stream_adapter_set_file (app_stream_adapter_stop v.adp).2 false).2 env).1 = .ok
        · rw [if_pos hst] at h ⊢
          split at h <;> simp_all
        · rw [if_neg hst] at h ⊢
          exact Or.inl rfl
  · simp only [Bool.not_eq_true] at hv
    have hred : video_player_switch_file v fileNull env = (.invalidState, v) := by
      simp only [video_player_switch_file, hv, Bool.not_false, if_true]
    rw [hred]
    exact Or.inr rfl

theorem video_player_pause_error (v : VP)
    (h : (video_player_pause v).1 ≠ .ok) :
    (video_player_pause v).2.state = .error := by
  unfold video_player_pause app_stream_adapter_pause at h ⊢
  split_ifs at h ⊢ <;> simp_all

theorem video_player_resume_error (v : VP)
    (h : (video_player_resume v).1 ≠ .ok) :
    (video_player_resume v).2.state = .error := by
  unfold video_player_resume app_stream_adapter_resume at h ⊢
  split_ifs at h ⊢ <;> simp_all

theorem adapter_start_error (a : Adapter) (env : VidEnv)
    (h : (app_stream_adapter_start a env).1 ≠ .ok) :
    (app_stream_adapter_start a env).2.running = false ∧
      (app_stream_adapter_start a env).2.taskRunning = a.taskRunning := by
  unfold app_stream_adapter_start at h ⊢
  split_ifs at h ⊢ <;> simp_all

/-! ## C8: no half-started pipeline on error -/

/-- A video player that is currently playing (obtained by a successful
`video_player_play` on the freshly initialized player). -/
def vPlaying : VP := (video_player_play vp0 goodEnv).2

/-- C8 counterexample: `video_player_switch_file(NULL)` invoked while the
state is `Playing` is an error path (`InvalidArgument`) that returns with the
state still `Playing` — it does not force the state back to `Stopped` or
`Error`. -/
theorem c8_counterexample_switch_null :
    video_player_get_state vPlaying = .playing ∧
    (video_player_switch_file vPlaying true goodEnv).1 = .invalidArg ∧
    video_player_get_state (video_player_switch_file vPlaying true goodEnv).2 = .playing := by
  decide

/-- C8 (amended): every error path of `play`/`switch`/`pause`/`resume` either
forces the playback state to `Error` before returning or is an early
validation failure that returns with the player completely untouched (never
half-started); a failed `app_stream_adapter_start` never leaves the adapter
marked running nor the extraction task created; and a successful `play` leaves
the pipeline fully started. -/
theorem c8_error_paths_force_state :
    (∀ (v : VP) (env : VidEnv), (video_player_play v env).1 ≠ .ok →
      (video_player_play v env).2.state = .error ∨
        ((video_player_play v env).1 = .invalidState ∧ (video_player_play v env).2 = v)) ∧
    (∀ (v : VP) (env : VidEnv) (fileNull : Bool),
      (video_player_switch_file v fileNull env).1 ≠ .ok →
      (video_player_switch_file v fileNull env).2.state = .error ∨
        (video_player_switch_file v fileNull env).2 = v) ∧
    (∀ v : VP, (video_player_pause v).1 ≠ .ok → (video_player_pause v).2.state = .error) ∧
    (∀ v : VP, (video_player_resume v).1 ≠ .ok → (video_player_resume v).2.state = .error) ∧
    (∀ (a : Adapter) (env : VidEnv), (app_stream_adapter_start a env).1 ≠ .ok →
      (app_stream_adapter_start a env).2.running = false ∧
        (app_stream_adapter_start a env).2.taskRunning = a.taskRunning) ∧
    (∀ (v : VP) (env : VidEnv), (video_player_play v env).1 = .ok →
      (video_player_play v env).2.state = .playing ∧
        (video_player_play v env).2.adp.running = true ∧
        (video_player_play v env).2.adp.taskRunning = true) :=
  ⟨video_player_play_error, video_player_switch_error,
   video_player_pause_error, video_player_resume_error,
   adapter_start_error, video_player_play_success⟩

/-- Witness for C8 (amended) at concrete inputs: a play whose extractor start
fails ends in the `Error` state, and a failed adapter start leaves the adapter
not running. -/
theorem c8_error_paths_force_state_witness :
    ((video_player_play vp0 badEnv).2.state = .error ∨
      ((video_player_play vp0 badEnv).1 = .invalidState ∧
        (video_player_play vp0 badEnv).2 = vp0)) ∧
    ((app_stream_adapter_start { adp0 with fileSet := true } badEnv).2.running = false ∧
      (app_stream_adapter_start { adp0 with fileSet := true } badEnv).2.taskRunning =
        ({ adp0 with fileSet := true } : Adapter).taskRunning) :=
  ⟨c8_error_paths_force_state.1 vp0 badEnv (by decide),
   c8_error_paths_force_state.2.2.2.2.1 { adp0 with fileSet := true } badEnv (by decide)⟩

/-! ## Video-player success-path lemmas -/

theorem adapter_start_good (a : Adapter) (env : VidEnv) (ha : a.running = false)
    (hf : a.fileSet = true) (he : env.extractorStart = .ok) (ht : env.taskCreateOk = true) :
    (app_stream_adapter_start a env).1 = .ok ∧
    (app_stream_adapter_start a env).2.running = true ∧
    (app_stream_adapter_start a env).2.taskRunning = true ∧
    (app_stream_adapter_start a env).2.hasInfo = env.infoOk ∧
    (env.infoOk = true → (app_stream_adapter_start a env).2.duration = env.duration) := by
  unfold app_stream_adapter_start
  split_ifs <;> simp_all

theorem adapter_get_info_spec (a : Adapter) :
    (a.hasInfo = true → app_stream_adapter_get_info a = (.ok, a.duration)) ∧
    (a.hasInfo = false → app_stream_adapter_get_info a = (.notFound, 0)) := by
  unfold app_stream_adapter_get_info
  constructor <;> intro h <;> simp [h]

theorem video_player_play_ok (v : VP) (env : VidEnv)
    (hv : v.inited = true) (he : env.extractorStart = .ok) (ht : env.taskCreateOk = true) :
    (video_player_play v env).1 = .ok ∧
    (video_player_play v env).2.state = .playing ∧
    (video_player_play v env).2.inited = v.inited := by
  have hsf := adapter_set_file_spec v.adp
  have hst := adapter_start_good (app_stream_adapter_set_file v.adp false).2 env
    hsf.2.1 hsf.2.2 he ht
  simp only [video_player_play, hv, Bool.not_true, Bool.false_eq_true, if_false]
  simp only [hsf.1, ne_eq, not_true_eq_false, if_false, not_false_eq_true, if_true]
  rw [if_pos hst.1]
  split <;> exact ⟨rfl, rfl, rfl⟩

theorem video_player_play_arming (v : VP) (env : VidEnv)
    (hv : v.inited = true) (he : env.extractorStart = .ok) (ht : env.taskCreateOk = true)
    (hi : env.infoOk = true) (hd : 0 < env.duration) :
    (video_player_play v env).1 = .ok ∧
    (video_player_play v env).2.state = .playing ∧
    (video_player_play v env).2.finishArmed = true ∧
    (video_player_play v env).2.finishDue = env.duration + 500 := by
  have hsf := adapter_set_file_spec v.adp
  have hst := adapter_start_good (app_stream_adapter_set_file v.adp false).2 env
    hsf.2.1 hsf.2.2 he ht
  have hgi : app_stream_adapter_get_info
      (app_stream_adapter_start (app_stream_adapter_set_file v.adp false).2 env).2 =
      (.ok, env.duration) := by
    have h1 := (adapter_get_info_spec
      (app_stream_adapter_start (app_stream_adapter_set_file v.adp false).2 env).2).1
      (by rw [hst.2.2.2.1, hi])
    rw [h1, hst.2.2.2.2 hi]
  simp only [video_player_play, hv, Bool.not_true, Bool.false_eq_true, if_false]
  simp only [hsf.1, ne_eq, not_true_eq_false, if_false, not_false_eq_true, if_true]
  rw [if_pos hst.1]
  rw [hgi]
  rw [if_pos ⟨rfl, hd⟩]
  exact ⟨rfl, rfl, rfl, rfl⟩

theorem video_player_play_no_arming (v : VP) (env : VidEnv)
    (hv : v.inited = true) (he : env.extractorStart = .ok) (ht : env.taskCreateOk = true)
    (hnd : env.infoOk = false ∨ env.duration = 0) :
    (video_player_play v env).1 = .ok ∧
    (video_player_play v env).2.finishArmed = v.finishArmed := by
  have hsf := adapter_set_file_spec v.adp
  have hst := adapter_start_good (app_stream_adapter_set_file v.adp false).2 env
    hsf.2.1 hsf.2.2 he ht
  have hgi : ¬ ((app_stream_adapter_get_info
      (app_stream_adapter_start (app_stream_adapter_set_file v.adp false).2 env).2).1 = .ok ∧
      0 < (app_stream_adapter_get_info
        (app_stream_adapter_start (app_stream_adapter_set_file v.adp false).2 env).2).2) := by
    rcases hnd with hno | hzero
    · have h2 := (adapter_get_info_spec
        (app_stream_adapter_start (app_stream_adapter_set_file v.adp false).2 env).2).2
        (by rw [hst.2.2.2.1, hno])
      rw [h2]
      simp
    · by_cases hio : env.infoOk = true
      · have h1 := (adapter_get_info_spec
          (app_stream_adapter_start (app_stream_adapter_set_file v.adp false).2 env).2).1
          (by rw [hst.2.2.2.1, hio])
        rw [h1, hst.2.2.2.2 hio, hzero]
        simp
      · simp only [Bool.not_eq_true] at hio
        have h2 := (adapter_get_info_spec
          (app_stream_adapter_start (app_stream_adapter_set_file v.adp false).2 env).2).2
          (by rw [hst.2.2.2.1, hio])
        rw [h2]
        simp
  simp only [video_player_play, hv, Bool.not_true, Bool.false_eq_true, if_false]
  simp only [hsf.1, ne_eq, not_true_eq_false, if_false, not_false_eq_true, if_true]
  rw [if_pos hst.1]
  rw [if_neg hgi]
  exact ⟨rfl, rfl⟩

theorem video_player_switch_ok (v : VP) (env : VidEnv)
    (hv : v.inited = true) (he : env.extractorStart = .ok) (ht : env.taskCreateOk = true) :
    (video_player_switch_file v false env).1 = .ok ∧
    (video_player_switch_file v false env).2.state = .playing ∧
    (video_player_switch_file v false env).2.adp.running = true ∧
    (env.infoOk = true → 0 < env.duration →
      (video_player_switch_file v false env).2.finishArmed = true ∧
      (video_player_switch_file v false env).2.finishDue = env.duration + 500) ∧
    ((env.infoOk = false ∨ env.duration = 0) →
      (video_player_switch_file v false env).2.finishArmed = false) := by
  simp only [video_player_switch_file, hv, Bool.not_true, Bool.false_eq_true, if_false]
  set a0 : Adapter :=
    if v.state ≠ VideoState.stopped then (app_stream_adapter_stop v.adp).2 else v.adp with ha0
  have hsf := adapter_set_file_spec a0
  have hst := adapter_start_good (app_stream_adapter_set_file a0 false).2 env
    hsf.2.1 hsf.2.2 he ht
  simp only [hsf.1, ne_eq, not_true_eq_false, if_false, not_false_eq_true, if_true]
  rw [if_pos hst.1]
  by_cases hio : env.infoOk = true
  · have h1 := (adapter_get_info_spec
      (app_stream_adapter_start (app_stream_adapter_set_file a0 false).2 env).2).1
      (by rw [hst.2.2.2.1, hio])
    rw [h1, hst.2.2.2.2 hio]
    by_cases hd : 0 < env.duration
    · rw [if_pos ⟨rfl, hd⟩]
      refine ⟨rfl, rfl, hst.2.1, fun _ _ => ⟨rfl, rfl⟩, ?_⟩
      intro hnd
      rcases hnd with hno | hzero
      · rw [hio] at hno
        cases hno
      · omega
    · rw [if_neg (by simpa using hd)]
      refine ⟨rfl, rfl, hst.2.1, fun _ hd2 => absurd hd2 hd, fun _ => rfl⟩
  · simp only [Bool.not_eq_true] at hio
    have h2 := (adapter_get_info_spec
      (app_stream_adapter_start (app_stream_adapter_set_file a0 false).2 env).2).2
      (by rw [hst.2.2.2.1, hio])
    rw [h2]
    rw [if_neg (by simp)]
    refine ⟨rfl, rfl, hst.2.1, ?_, fun _ => rfl⟩
    intro hio2 _
    rw [hio] at hio2
    cases hio2

/-! ## Album-navigator step lemmas -/

theorem ldi_good (s : Sys) (idx : Nat) (e : MediaEntry)
    (hget : s.files.get? idx = some e)
    (hval : validate_file_for_decoding e = true) (hres : e.imgResult = .ok) :
    (load_and_display_image s idx).1 = .ok ∧
    (load_and_display_image s idx).2.current_index = idx ∧
    (load_and_display_image s idx).2.files = s.files ∧
    (load_and_display_image s idx).2.initialized = s.initialized ∧
    (load_and_display_image s idx).2.vp = s.vp ∧
    (load_and_display_image s idx).2.softSwitches = s.softSwitches ∧
    (load_and_display_image s idx).2.uiMode = s.uiMode ∧
    (load_and_display_image s idx).2.displayedImage = some idx ∧
    (s.ss.is_running = true → (load_and_display_image s idx).2.ss = s.ss) := by
  unfold load_and_display_image
  simp only [hget, hval, hres, Bool.not_true, Bool.false_eq_true, if_false, ne_eq,
    not_true_eq_false]
  by_cases hrun : s.ss.is_running = true
  · simp [hrun]
  · split_ifs <;> simp [hrun]

theorem ldi_fail (s : Sys) (idx : Nat) (e : MediaEntry)
    (hget : s.files.get? idx = some e)
    (hf : ¬ (validate_file_for_decoding e = true ∧ e.imgResult = .ok)) :
    (load_and_display_image s idx).1 ≠ .ok ∧ (load_and_display_image s idx).2 = s := by
  unfold load_and_display_image
  simp only [hget]
  by_cases hval : validate_file_for_decoding e = true
  · have hres : e.imgResult ≠ .ok := fun hr => hf ⟨hval, hr⟩
    simp only [hval, Bool.not_true, Bool.false_eq_true, if_false, ne_eq]
    rw [if_pos hres]
    simp [hres]
  · simp only [Bool.not_eq_true] at hval
    simp only [hval, Bool.not_false, if_true]
    simp

theorem ldi_frame (s : Sys) (idx : Nat) :
    (load_and_display_image s idx).2.softSwitches = s.softSwitches ∧
    (load_and_display_image s idx).2.files = s.files ∧
    (load_and_display_image s idx).2.vp = s.vp ∧
    (load_and_display_image s idx).2.initialized = s.initialized := by
  unfold load_and_display_image
  cases hget : s.files.get? idx with
  | none => simp [hget]
  | some e =>
    simp only [hget]
    split_ifs <;> simp

theorem adapter_start_fail (a : Adapter) (env : VidEnv)
    (hf : ¬ (env.extractorStart = .ok ∧ env.taskCreateOk = true))
    (ha : a.running = false) :
    (app_stream_adapter_start a env).1 ≠ .ok := by
  unfold app_stream_adapter_start
  split_ifs <;> simp_all

theorem video_player_play_fail (v : VP) (env : VidEnv)
    (hf : ¬ (env.extractorStart = .ok ∧ env.taskCreateOk = true))
    (h1 : v.state ≠ .playing) (h2 : v.state ≠ .paused) :
    (video_player_play v env).1 ≠ .ok ∧
    (video_player_play v env).2.state ≠ .playing ∧
    (video_player_play v env).2.state ≠ .paused ∧
    (video_player_play v env).2.inited = v.inited := by
  by_cases hv : v.inited = true
  · have hsf := adapter_set_file_spec v.adp
    have hst := adapter_start_fail (app_stream_adapter_set_file v.adp false).2 env hf hsf.2.1
    simp only [video_player_play, hv, Bool.not_true, Bool.false_eq_true, if_false]
    simp only [hsf.1, ne_eq, not_true_eq_false, if_false, not_false_eq_true, if_true]
    rw [if_neg hst]
    exact ⟨hst, by simp, by simp, rfl⟩
  · simp only [Bool.not_eq_true] at hv
    have hred : video_player_play v env = (.invalidState, v) := by
      simp only [video_player_play, hv, Bool.not_false, if_true]
    rw [hred]
    exact ⟨by simp, h1, h2, rfl⟩

theorem video_player_stop_spec (v : VP) (hv : v.inited = true) (hs : v.state ≠ .stopped) :
    (video_player_stop v).2 =
      { v with state := .stopped, finished := true, hasError := false,
               adp := (app_stream_adapter_stop v.adp).2, finishArmed := false } := by
  unfold video_player_stop
  rw [if_pos (by simp [hv, hs])]

theorem video_player_stop_frame (v : VP) :
    (video_player_stop v).2.inited = v.inited ∧
    (video_player_stop v).2.state ≠ .playing ∨ (video_player_stop v).2 = v := by
  unfold video_player_stop
  split_ifs <;> simp_all

/-! ## Retry-loop lemmas -/

theorem ladm_loop_softSwitches (b : Nat) : ∀ (s : Sys) (idx : Nat),
    (ladm_loop false b s idx).2.1.softSwitches = s.softSwitches := by
  induction b with
  | zero => intro s idx; rfl
  | succ b ih =>
    intro s idx
    unfold ladm_loop
    cases hget : s.files.get? idx with
    | none => simp only [hget]
    | some e =>
      simp only [hget]
      cases hmt : e.mediaType with
      | video =>
        simp only [hmt, Bool.false_eq_true, if_false, Bool.not_false, if_true]
        split
        · rfl
        · rw [ih]
      | image =>
        simp only [hmt]
        split
        · exact (ldi_frame _ _).1
        · rw [ih]
          exact (ldi_frame _ _).1
      | unknown =>
        simp only [hmt]
        rw [ih]

theorem ladm_loop_good_entry (b : Nat) (s : Sys) (idx : Nat) (e : MediaEntry)
    (hget : s.files.get? idx = some e) (hL : entryLoads e) (hv : s.vp.inited = true) :
    (ladm_loop false (b + 1) s idx).1 = .ok ∧
    (ladm_loop false (b + 1) s idx).2.1.current_index = idx ∧
    (ladm_loop false (b + 1) s idx).2.1.files = s.files ∧
    (ladm_loop false (b + 1) s idx).2.1.initialized = s.initialized ∧
    (ladm_loop false (b + 1) s idx).2.1.vp.inited = true ∧
    (e.mediaType = .image → s.ss.is_running = true →
      (ladm_loop false (b + 1) s idx).2.1.ss = s.ss) ∧
    (e.mediaType = .video →
      (ladm_loop false (b + 1) s idx).2.1.ss = (slideshow_ctrl_stop s.ss).2) := by
  unfold ladm_loop
  simp only [hget]
  rcases hL with ⟨hmt, hval, hres⟩ | ⟨hmt, hex, htk⟩
  · simp only [hmt]
    obtain ⟨h1, h2, h3, h4, h5, _, _, _, h9⟩ :=
      ldi_good { s with uiMode := UiMode.image } idx e hget hval hres
    rw [if_pos h1]
    refine ⟨rfl, h2, h3, h4, ?_, ?_, ?_⟩
    · rw [h5]
      exact hv
    · intro _ hrun
      exact h9 hrun
    · intro hvid
      cases hvid
  · simp only [hmt, Bool.false_eq_true, if_false]
    have hp := video_player_play_ok s.vp e.vid hv hex htk
    rw [if_pos hp.1]
    refine ⟨hp.1, rfl, rfl, rfl, ?_, ?_, ?_⟩
    · rw [hp.2.2]
      exact hv
    · intro himg
      cases himg
    · intro _
      rfl

theorem ladm_loop_allfail (b : Nat) : ∀ (s : Sys) (idx : Nat),
    (∀ e ∈ s.files, entryFails e) → idx < s.files.length →
    s.vp.state ≠ .playing → s.vp.state ≠ .paused →
    (ladm_loop false b s idx).1 = .notFound ∧
    (ladm_loop false b s idx).2.2 = b ∧
    (ladm_loop false b s idx).2.1.files = s.files ∧
    (ladm_loop false b s idx).2.1.initialized = s.initialized ∧
    (ladm_loop false b s idx).2.1.vp.state ≠ .playing ∧
    (ladm_loop false b s idx).2.1.vp.state ≠ .paused := by
  induction b with
  | zero =>
    intro s idx _ _ h1 h2
    exact ⟨rfl, rfl, rfl, rfl, h1, h2⟩
  | succ b ih =>
    intro s idx hall hidx h1 h2
    have hlen : 0 < s.files.length := Nat.lt_of_le_of_lt (Nat.zero_le _) hidx
    obtain ⟨e, hget⟩ : ∃ e, s.files.get? idx = some e :=
      ⟨s.files.get ⟨idx, hidx⟩, List.get?_eq_get hidx⟩
    have hmem : e ∈ s.files := List.get?_mem hget
    have hfail := hall e hmem
    unfold ladm_loop
    simp only [hget]
    cases hmt : e.mediaType with
    | video =>
      simp only [hmt, Bool.false_eq_true, if_false, Bool.not_false, if_true]
      simp only [entryFails, hmt] at hfail
      have hpf := video_player_play_fail s.vp e.vid hfail h1 h2
      rw [if_neg hpf.1]
      obtain ⟨k1, k2, k3, k4, k5, k6⟩ := ih
        { s with uiMode := UiMode.image,
                 ss := (slideshow_ctrl_stop s.ss).2,
                 vp := (video_player_play s.vp e.vid).2 }
        ((idx + 1) % s.files.length) hall (Nat.mod_lt _ hlen) hpf.2.1 hpf.2.2.1
      refine ⟨k1, ?_, k3, k4, k5, k6⟩
      rw [k2]
    | image =>
      simp only [hmt]
      simp only [entryFails, hmt] at hfail
      have hlf := ldi_fail { s with uiMode := UiMode.image } idx e hget hfail
      rw [if_neg (by simpa using hlf.1)]
      rw [hlf.2]
      obtain ⟨k1, k2, k3, k4, k5, k6⟩ := ih { s with uiMode := UiMode.image }
        ((idx + 1) % s.files.length) hall (Nat.mod_lt _ hlen) h1 h2
      refine ⟨k1, ?_, k3, k4, k5, k6⟩
      rw [k2]
    | unknown =>
      simp only [hmt]
      obtain ⟨k1, k2, k3, k4, k5, k6⟩ := ih s ((idx + 1) % s.files.length) hall
        (Nat.mod_lt _ hlen) h1 h2
      refine ⟨k1, ?_, k3, k4, k5, k6⟩
      rw [k2]

/-! ## Navigation wrappers -/

theorem load_and_display_media_good (s : Sys) (idx : Nat) (e : MediaEntry)
    (hget : s.files.get? idx = some e) (hL : entryLoads e) (hv : s.vp.inited = true)
    (hnp : s.vp.state ≠ .playing) (hnpp : s.vp.state ≠ .paused)
    (hidx : idx < s.files.length) :
    (load_and_display_media s idx).1 = .ok ∧
    (load_and_display_media s idx).2.1.current_index = idx ∧
    (load_and_display_media s idx).2.1.files = s.files ∧
    (load_and_display_media s idx).2.1.initialized = s.initialized ∧
    (load_and_display_media s idx).2.1.vp.inited = true ∧
    (e.mediaType = .image → s.ss.is_running = true →
      (load_and_display_media s idx).2.1.ss = s.ss) ∧
    (e.mediaType = .video →
      (load_and_display_media s idx).2.1.ss = (slideshow_ctrl_stop s.ss).2) := by
  unfold load_and_display_media
  rw [if_neg (by omega : ¬ idx ≥ s.files.length)]
  have hwp : decide (video_player_get_state s.vp = VideoState.playing ∨
      video_player_get_state s.vp = VideoState.paused) = false := by
    simp [video_player_get_state, hnp, hnpp]
  simp only [hwp]
  obtain ⟨b, hb⟩ : ∃ b, s.files.length = b + 1 := ⟨s.files.length - 1, by omega⟩
  rw [hb]
  exact ladm_loop_good_entry b s idx e hget hL hv

theorem load_and_display_media_allfail (s : Sys) (idx : Nat)
    (hall : ∀ e ∈ s.files, entryFails e) (hidx : idx < s.files.length)
    (hnp : s.vp.state ≠ .playing) (hnpp : s.vp.state ≠ .paused) :
    (load_and_display_media s idx).1 = .notFound ∧
    (load_and_display_media s idx).2.2 = s.files.length ∧
    (load_and_display_media s idx).2.1.files = s.files ∧
    (load_and_display_media s idx).2.1.initialized = s.initialized ∧
    (load_and_display_media s idx).2.1.vp.state ≠ .playing ∧
    (load_and_display_media s idx).2.1.vp.state ≠ .paused := by
  unfold load_and_display_media
  rw [if_neg (by omega : ¬ idx ≥ s.files.length)]
  have hwp : decide (video_player_get_state s.vp = VideoState.playing ∨
      video_player_get_state s.vp = VideoState.paused) = false := by
    simp [video_player_get_state, hnp, hnpp]
  simp only [hwp]
  exact ladm_loop_allfail s.files.length s idx hall hidx hnp hnpp

theorem photo_album_next_good (s : Sys)
    (hinit : s.initialized = true) (hv : s.vp.inited = true)
    (hn : 0 < s.files.length) (hall : ∀ e ∈ s.files, entryLoads e) :
    (photo_album_next s).1 = .ok ∧
    (photo_album_next s).2.1.current_index = (s.current_index + 1) % s.files.length ∧
    (photo_album_next s).2.1.files = s.files ∧
    (photo_album_next s).2.1.initialized = true ∧
    (photo_album_next s).2.1.vp.inited = true := by
  unfold photo_album_next
  have hg : (!s.initialized || decide (s.files.length = 0)) = false := by
    rw [hinit]
    simp only [Bool.not_true, Bool.false_or, decide_eq_false_iff_not]
    omega
  rw [hg]
  simp only [Bool.false_eq_true, if_false]
  have hidx : (s.current_index + 1) % s.files.length < s.files.length := Nat.mod_lt _ hn
  have hget := List.get?_eq_get hidx
  have hL := hall _ (List.get?_mem hget)
  by_cases hpp : (video_player_get_state s.vp = VideoState.playing ∨
      video_player_get_state s.vp = VideoState.paused)
  · rw [if_pos hpp]
    have hstate : s.vp.state ≠ VideoState.stopped := by
      rcases hpp with h | h <;> simp only [video_player_get_state] at h <;> simp [h]
    have hsp := video_player_stop_spec s.vp hv hstate
    have hvi : (video_player_stop s.vp).2.inited = true := by
      rw [hsp]
      exact hv
    have hst1 : (video_player_stop s.vp).2.state = VideoState.stopped := by rw [hsp]
    have hnp1 : (video_player_stop s.vp).2.state ≠ VideoState.playing := by
      rw [hst1]
      simp
    have hnpp1 : (video_player_stop s.vp).2.state ≠ VideoState.paused := by
      rw [hst1]
      simp
    have hm := load_and_display_media_good
      { s with uiMode := UiMode.image, vp := (video_player_stop s.vp).2 }
      ((s.current_index + 1) % s.files.length) _ hget hL hvi hnp1 hnpp1 hidx
    exact ⟨hm.1, hm.2.1, hm.2.2.1, hm.2.2.2.1.trans hinit, hm.2.2.2.2.1⟩
  · rw [if_neg hpp]
    have hnp : s.vp.state ≠ VideoState.playing := fun hc => hpp (Or.inl hc)
    have hnpp : s.vp.state ≠ VideoState.paused := fun hc => hpp (Or.inr hc)
    have hm := load_and_display_media_good s ((s.current_index + 1) % s.files.length) _
      hget hL hv hnp hnpp hidx
    exact ⟨hm.1, hm.2.1, hm.2.2.1, hm.2.2.2.1.trans hinit, hm.2.2.2.2.1⟩

theorem photo_album_next_allfail (s : Sys)
    (hinit : s.initialized = true) (hv : s.vp.inited = true)
    (hn : 0 < s.files.length) (hall : ∀ e ∈ s.files, entryFails e) :
    (photo_album_next s).1 = .notFound ∧
    (photo_album_next s).2.2 = s.files.length := by
  unfold photo_album_next
  have hg : (!s.initialized || decide (s.files.length = 0)) = false := by
    rw [hinit]
    simp only [Bool.not_true, Bool.false_or, decide_eq_false_iff_not]
    omega
  rw [hg]
  simp only [Bool.false_eq_true, if_false]
  have hidx : (s.current_index + 1) % s.files.length < s.files.length := Nat.mod_lt _ hn
  by_cases hpp : (video_player_get_state s.vp = VideoState.playing ∨
      video_player_get_state s.vp = VideoState.paused)
  · rw [if_pos hpp]
    have hstate : s.vp.state ≠ VideoState.stopped := by
      rcases hpp with h | h <;> simp only [video_player_get_state] at h <;> simp [h]
    have hsp := video_player_stop_spec s.vp hv hstate
    have hst1 : (video_player_stop s.vp).2.state = VideoState.stopped := by rw [hsp]
    have hnp1 : (video_player_stop s.vp).2.state ≠ VideoState.playing := by
      rw [hst1]
      simp
    have hnpp1 : (video_player_stop s.vp).2.state ≠ VideoState.paused := by
      rw [hst1]
      simp
    have hm := load_and_display_media_allfail
      { s with uiMode := UiMode.image, vp := (video_player_stop s.vp).2 }
      ((s.current_index + 1) % s.files.length) hall hidx hnp1 hnpp1
    exact ⟨hm.1, hm.2.1⟩
  · rw [if_neg hpp]
    have hnp : s.vp.state ≠ VideoState.playing := fun hc => hpp (Or.inl hc)
    have hnpp : s.vp.state ≠ VideoState.paused := fun hc => hpp (Or.inr hc)
    have hm := load_and_display_media_allfail s ((s.current_index + 1) % s.files.length)
      hall hidx hnp hnpp
    exact ⟨hm.1, hm.2.1⟩

theorem prev_loop_allfail (b : Nat) : ∀ (s : Sys) (idx : Nat),
    (∀ e ∈ s.files, entryFails e) → idx < s.files.length →
    s.vp.state ≠ .playing → s.vp.state ≠ .paused →
    (prev_loop b s idx).1 = .notFound ∧
    (prev_loop b s idx).2.2 = b * s.files.length ∧
    (prev_loop b s idx).2.1.files = s.files := by
  induction b with
  | zero =>
    intro s idx _ _ _ _
    exact ⟨rfl, (Nat.zero_mul _).symm, rfl⟩
  | succ b ih =>
    intro s idx hall hidx h1 h2
    have hn : 0 < s.files.length := Nat.lt_of_le_of_lt (Nat.zero_le _) hidx
    have hm := load_and_display_media_allfail s idx hall hidx h1 h2
    simp only [prev_loop]
    rw [if_neg (by simp [hm.1])]
    have hfiles := hm.2.2.1
    have hallX : ∀ e ∈ (load_and_display_media s idx).2.1.files, entryFails e := by
      rw [hfiles]
      exact hall
    have hnX : 0 < (load_and_display_media s idx).2.1.files.length := by
      rw [hfiles]
      exact hn
    obtain ⟨j1, j2, j3⟩ := ih (load_and_display_media s idx).2.1
      ((idx + (load_and_display_media s idx).2.1.files.length - 1) %
        (load_and_display_media s idx).2.1.files.length)
      hallX (Nat.mod_lt _ hnX) hm.2.2.2.2.1 hm.2.2.2.2.2
    refine ⟨j1, ?_, j3.trans hfiles⟩
    rw [hm.2.1, j2, hfiles, Nat.succ_mul]
    exact Nat.add_comm _ _

theorem photo_album_prev_allfail (s : Sys)
    (hinit : s.initialized = true) (hv : s.vp.inited = true)
    (hn : 0 < s.files.length) (hall : ∀ e ∈ s.files, entryFails e) :
    (photo_album_prev s).1 = .notFound ∧
    (photo_album_prev s).2.2 = s.files.length * s.files.length := by
  unfold photo_album_prev
  have hg : (!s.initialized || decide (s.files.length = 0)) = false := by
    rw [hinit]
    simp only [Bool.not_true, Bool.false_or, decide_eq_false_iff_not]
    omega
  rw [hg]
  simp only [Bool.false_eq_true, if_false]
  have hidx : (s.current_index + s.files.length - 1) % s.files.length < s.files.length :=
    Nat.mod_lt _ hn
  by_cases hpp : (video_player_get_state s.vp = VideoState.playing ∨
      video_player_get_state s.vp = VideoState.paused)
  · rw [if_pos hpp]
    have hstate : s.vp.state ≠ VideoState.stopped := by
      rcases hpp with h | h <;> simp only [video_player_get_state] at h <;> simp [h]
    have hsp := video_player_stop_spec s.vp hv hstate
    have hst1 : (video_player_stop s.vp).2.state = VideoState.stopped := by rw [hsp]
    have hnp1 : (video_player_stop s.vp).2.state ≠ VideoState.playing := by
      rw [hst1]
      simp
    have hnpp1 : (video_player_stop s.vp).2.state ≠ VideoState.paused := by
      rw [hst1]
      simp
    have hm := prev_loop_allfail s.files.length
      { s with uiMode := UiMode.image, vp := (video_player_stop s.vp).2 }
      ((s.current_index + s.files.length - 1) % s.files.length) hall hidx hnp1 hnpp1
    exact ⟨hm.1, hm.2.1⟩
  · rw [if_neg hpp]
    have hnp : s.vp.state ≠ VideoState.playing := fun hc => hpp (Or.inl hc)
    have hnpp : s.vp.state ≠ VideoState.paused := fun hc => hpp (Or.inr hc)
    have hm := prev_loop_allfail s.files.length s
      ((s.current_index + s.files.length - 1) % s.files.length) hall hidx hnp hnpp
    exact ⟨hm.1, hm.2.1⟩

/-! ## C1: retry exhaustion on an all-corrupt collection -/

/-- An all-corrupt two-entry collection (started system). -/
def sysCorrupt : Sys := sysOn [imgCorrupt 0, imgCorrupt 1]

/-- C1 counterexample: on an all-corrupt collection of size 2,
`photo_album_prev` returns `NotFound` but only after 4 load attempts — its own
retry loop (2 iterations) multiplies with the retry loop inside
`load_and_display_media` (2 attempts each) — not after exactly `count = 2`
attempts as claimed. -/
theorem c1_counterexample_prev_attempts :
    sysCorrupt.files.length = 2 ∧
    (photo_album_prev sysCorrupt).1 = .notFound ∧
    (photo_album_prev sysCorrupt).2.2 = 4 ∧
    (photo_album_prev sysCorrupt).2.2 ≠ sysCorrupt.files.length := by
  decide

/-- C1 (amended): on a collection in which every entry fails to load,
`photo_album_next` returns `NotFound` after exactly `count` load attempts;
`photo_album_prev` also returns `NotFound`, but after `count * count` load
attempts (its outer retry loop performs `count` calls to
`load_and_display_media`, each of which attempts all `count` candidates). -/
theorem c1_allfail_next_prev (s : Sys)
    (hinit : s.initialized = true) (hv : s.vp.inited = true)
    (hn : 0 < s.files.length) (hall : ∀ e ∈ s.files, entryFails e) :
    (photo_album_next s).1 = .notFound ∧
    (photo_album_next s).2.2 = s.files.length ∧
    (photo_album_prev s).1 = .notFound ∧
    (photo_album_prev s).2.2 = s.files.length * s.files.length := by
  obtain ⟨a1, a2⟩ := photo_album_next_allfail s hinit hv hn hall
  obtain ⟨b1, b2⟩ := photo_album_prev_allfail s hinit hv hn hall
  exact ⟨a1, a2, b1, b2⟩

/-- Witness for C1 (amended) on the concrete all-corrupt collection. -/
theorem c1_allfail_next_prev_witness :
    (photo_album_next sysCorrupt).1 = .notFound ∧
    (photo_album_next sysCorrupt).2.2 = sysCorrupt.files.length ∧
    (photo_album_prev sysCorrupt).1 = .notFound ∧
    (photo_album_prev sysCorrupt).2.2 = sysCorrupt.files.length * sysCorrupt.files.length :=
  c1_allfail_next_prev sysCorrupt rfl rfl (by decide) (by decide)

/-! ## C6: n applications of next return to the original index -/

/-- Iterated `photo_album_next` (state component). -/
def next_iter : Nat → Sys → Sys
  | 0, s => s
  | k + 1, s => next_iter k (photo_album_next s).2.1

theorem next_iter_spec (k : Nat) : ∀ (s : Sys),
    s.initialized = true → s.vp.inited = true →
    0 < s.files.length → (∀ e ∈ s.files, entryLoads e) →
    s.current_index < s.files.length →
    (next_iter k s).current_index = (s.current_index + k) % s.files.length ∧
    (next_iter k s).files = s.files := by
  induction k with
  | zero =>
    intro s _ _ _ _ hc
    exact ⟨(Nat.mod_eq_of_lt hc).symm, rfl⟩
  | succ k ih =>
    intro s hinit hv hn hall hc
    obtain ⟨g1, g2, g3, g4, g5⟩ := photo_album_next_good s hinit hv hn hall
    have hall2 : ∀ e ∈ (photo_album_next s).2.1.files, entryLoads e := by
      rw [g3]
      exact hall
    have hn2 : 0 < (photo_album_next s).2.1.files.length := by
      rw [g3]
      exact hn
    have hc2 : (photo_album_next s).2.1.current_index <
        (photo_album_next s).2.1.files.length := by
      rw [g2, g3]
      exact Nat.mod_lt _ hn
    obtain ⟨i1, i2⟩ := ih (photo_album_next s).2.1 g4 g5 hn2 hall2 hc2
    constructor
    · show (next_iter k (photo_album_next s).2.1).current_index = _
      rw [i1, g2, g3, Nat.mod_add_mod]
      have harith : s.current_index + 1 + k = s.current_index + (k + 1) := by omega
      rw [harith]
    · show (next_iter k (photo_album_next s).2.1).files = s.files
      rw [i2, g3]

/-- C6: for a collection of size n ≥ 1 in which every entry loads
successfully, applying `photo_album_next` exactly n times returns
`current_index` to its original value (each call advances by +1 modulo n). -/
theorem c6_next_n_times_returns (s : Sys)
    (hinit : s.initialized = true) (hv : s.vp.inited = true)
    (hn : 0 < s.files.length) (hall : ∀ e ∈ s.files, entryLoads e)
    (hc : s.current_index < s.files.length) :
    (next_iter s.files.length s).current_index = s.current_index := by
  have h := next_iter_spec s.files.length s hinit hv hn hall hc
  rw [h.1, Nat.add_mod_right]
  exact Nat.mod_eq_of_lt hc

/-- Witness for C6 on a concrete two-image collection. -/
theorem c6_next_n_times_returns_witness :
    (next_iter (sysOn [imgOk 0, imgOk 1]).files.length
      (sysOn [imgOk 0, imgOk 1])).current_index =
      (sysOn [imgOk 0, imgOk 1]).current_index :=
  c6_next_n_times_returns (sysOn [imgOk 0, imgOk 1]) rfl rfl (by decide) (by decide) (by decide)

/-! ## C9: soft switch -/

theorem ldm_softSwitches (s : Sys) (idx : Nat)
    (hnp : s.vp.state ≠ .playing) (hnpp : s.vp.state ≠ .paused) :
    (load_and_display_media s idx).2.1.softSwitches = s.softSwitches := by
  unfold load_and_display_media
  by_cases hge : idx ≥ s.files.length
  · rw [if_pos hge]
  · rw [if_neg hge]
    have hwp : decide (video_player_get_state s.vp = VideoState.playing ∨
        video_player_get_state s.vp = VideoState.paused) = false := by
      simp [video_player_get_state, hnp, hnpp]
    simp only [hwp]
    exact ladm_loop_softSwitches s.files.length s idx

theorem ldm_soft_switch (s : Sys) (idx : Nat) (e : MediaEntry)
    (hget : s.files.get? idx = some e) (hmt : e.mediaType = .video)
    (hplay : s.vp.state = .playing ∨ s.vp.state = .paused)
    (hv : s.vp.inited = true) (he : e.vid.extractorStart = .ok)
    (htk : e.vid.taskCreateOk = true) (hidx : idx < s.files.length) :
    (load_and_display_media s idx).1 = .ok ∧
    (load_and_display_media s idx).2.1.uiMode = s.uiMode ∧
    (load_and_display_media s idx).2.1.softSwitches = s.softSwitches + 1 ∧
    (load_and_display_media s idx).2.1.current_index = idx := by
  unfold load_and_display_media
  rw [if_neg (by omega : ¬ idx ≥ s.files.length)]
  have hwp : decide (video_player_get_state s.vp = VideoState.playing ∨
      video_player_get_state s.vp = VideoState.paused) = true := by
    rw [decide_eq_true_eq]
    exact hplay
  simp only [hwp]
  obtain ⟨b, hb⟩ : ∃ b, s.files.length = b + 1 := ⟨s.files.length - 1, by omega⟩
  rw [hb]
  have hsw := video_player_switch_ok s.vp e.vid hv he htk
  unfold ladm_loop
  simp only [hget, hmt, if_true]
  rw [if_pos hsw.1]
  exact ⟨hsw.1, rfl, rfl, rfl⟩

/-- C9 counterexample: `video_player_switch_file` called in the `Stopped`
state (not `Playing`/`Paused`) does perform the soft transition: it returns
`OK` and enters `Playing`. -/
theorem c9_counterexample_switch_from_stopped :
    video_player_get_state vp0 = .stopped ∧
    (video_player_switch_file vp0 false goodEnv).1 = .ok ∧
    video_player_get_state (video_player_switch_file vp0 false goodEnv).2 = .playing := by
  decide

/-- C9 (amended): `video_player_switch_file` itself checks no state — from any
state of an initialized player it stops the pipeline internally, restarts it
on the new path (entering `Playing` with the adapter running) and re-arms the
completion timer when a nonzero duration is known; the restriction to
`Playing`/`Paused` is enforced by the caller: `load_and_display_media` invokes
the soft switch only when the captured video state is `Playing`/`Paused`
(otherwise the soft-switch count is unchanged), and on the soft-switch path it
does not change the presentation mode. -/
theorem c9_soft_switch_guarded_by_caller :
    (∀ (v : VP) (env : VidEnv), v.inited = true → env.extractorStart = .ok →
      env.taskCreateOk = true →
      (video_player_switch_file v false env).1 = .ok ∧
      (video_player_switch_file v false env).2.state = .playing ∧
      (video_player_switch_file v false env).2.adp.running = true ∧
      (env.infoOk = true → 0 < env.duration →
        (video_player_switch_file v false env).2.finishArmed = true ∧
        (video_player_switch_file v false env).2.finishDue = env.duration + 500)) ∧
    (∀ (s : Sys) (idx : Nat), s.vp.state ≠ .playing → s.vp.state ≠ .paused →
      (load_and_display_media s idx).2.1.softSwitches = s.softSwitches) ∧
    (∀ (s : Sys) (idx : Nat) (e : MediaEntry),
      s.files.get? idx = some e → e.mediaType = .video →
      (s.vp.state = .playing ∨ s.vp.state = .paused) →
      s.vp.inited = true → e.vid.extractorStart = .ok → e.vid.taskCreateOk = true →
      idx < s.files.length →
      (load_and_display_media s idx).1 = .ok ∧
      (load_and_display_media s idx).2.1.uiMode = s.uiMode ∧
      (load_and_display_media s idx).2.1.softSwitches = s.softSwitches + 1 ∧
      (load_and_display_media s idx).2.1.current_index = idx) := by
  refine ⟨?_, ?_, ?_⟩
  · intro v env hv he ht
    have h := video_player_switch_ok v env hv he ht
    exact ⟨h.1, h.2.1, h.2.2.1, h.2.2.2.1⟩
  · intro s idx hnp hnpp
    exact ldm_softSwitches s idx hnp hnpp
  · intro s idx e hget hmt hplay hv he htk hidx
    exact ldm_soft_switch s idx e hget hmt hplay hv he htk hidx

/-- A system currently playing its first (video) entry, reached through
`photo_album_goto`. -/
def sysPlayingVideo : Sys := (photo_album_goto (sysOn [vidOk 0, imgOk 1]) 0).2.1

/-- Witness for C9 (amended): a soft switch from the concrete playing system
succeeds, keeps the UI mode, and bumps the soft-switch count once. -/
theorem c9_soft_switch_guarded_by_caller_witness :
    (load_and_display_media sysPlayingVideo 0).1 = .ok ∧
    (load_and_display_media sysPlayingVideo 0).2.1.uiMode = sysPlayingVideo.uiMode ∧
    (load_and_display_media sysPlayingVideo 0).2.1.softSwitches =
      sysPlayingVideo.softSwitches + 1 ∧
    (load_and_display_media sysPlayingVideo 0).2.1.current_index = 0 :=
  c9_soft_switch_guarded_by_caller.2.2 sysPlayingVideo 0 (vidOk 0) (by decide) (by decide)
    (by decide) (by decide) (by decide) (by decide) (by decide)

/-! ## C10: is_paused semantics -/

theorem slideshow_ctrl_stop_not_running (ss : SlideshowSt) :
    (slideshow_ctrl_stop ss).2.is_running = false := by
  unfold slideshow_ctrl_stop
  by_cases h : ss.is_running = true
  · simp [h]
  · simp only [Bool.not_eq_true] at h
    simp [h]

/-- C10 counterexample: after `photo_album_pause()` (a `UserInteraction`
pause) the periodic slideshow trigger is stopped (`periodicCount = 0`), yet
`photo_album_is_paused()` returns `false` on this initialized album — so
`is_paused` is not true exactly when the periodic timer is not running. -/
theorem c10_counterexample_user_pause :
    (photo_album_pause (sysOn [imgOk 0, imgOk 1])).2.ss.periodicCount = 0 ∧
    (photo_album_pause (sysOn [imgOk 0, imgOk 1])).2.initialized = true ∧
    photo_album_is_paused (photo_album_pause (sysOn [imgOk 0, imgOk 1])).2 = false := by
  decide

/-- C10 (amended): `photo_album_is_paused` returns true exactly when the
album is uninitialized or the slideshow controller's `is_running` flag is
false (the controller-`Stopped` state) — not when the periodic trigger itself
is stopped. It therefore reports paused after a successful video start (which
stops the controller), and `photo_album_refresh` then skips redisplaying the
current entry (zero load attempts, display unchanged). -/
theorem c10_is_paused_tracks_controller :
    (∀ s : Sys, photo_album_is_paused s = (!s.initialized || !s.ss.is_running)) ∧
    (∀ (s : Sys) (nf : List MediaEntry), s.initialized = true →
      s.ss.is_running = false →
      (photo_album_refresh s nf).1 = .ok ∧
      (photo_album_refresh s nf).2.2 = 0 ∧
      (photo_album_refresh s nf).2.1.displayedImage = s.displayedImage ∧
      (photo_album_refresh s nf).2.1.ss = s.ss) ∧
    (∀ (s : Sys) (idx : Nat) (e : MediaEntry),
      s.files.get? idx = some e → goodVideo e → s.initialized = true →
      s.vp.inited = true → s.vp.state ≠ .playing → s.vp.state ≠ .paused →
      idx < s.files.length →
      photo_album_is_paused (load_and_display_media s idx).2.1 = true) := by
  refine ⟨?_, ?_, ?_⟩
  · intro s
    cases hi : s.initialized <;>
      simp [photo_album_is_paused, slideshow_ctrl_is_running, hi]
  · intro s nf hinit hrun
    unfold photo_album_refresh
    rw [hinit]
    simp only [Bool.not_true, Bool.false_eq_true, if_false]
    split
    · split
      · rename_i h2
        simp [photo_album_is_paused, slideshow_ctrl_is_running, hinit, hrun] at h2
      · exact ⟨rfl, rfl, rfl, rfl⟩
    · split
      · rename_i h2
        simp [photo_album_is_paused, slideshow_ctrl_is_running, hinit, hrun] at h2
      · exact ⟨rfl, rfl, rfl, rfl⟩
  · intro s idx e hget hgood hinit hv hnp hnpp hidx
    have hm := load_and_display_media_good s idx e hget (Or.inr hgood) hv hnp hnpp hidx
    have hss := hm.2.2.2.2.2.2 hgood.1
    have hini := hm.2.2.2.1
    unfold photo_album_is_paused slideshow_ctrl_is_running
    rw [hini, hinit, hss]
    simp [slideshow_ctrl_stop_not_running]

/-- Witness for C10 (amended): the concrete playing-video system reports
itself paused, and a refresh on it performs zero load attempts. -/
theorem c10_is_paused_tracks_controller_witness :
    ((photo_album_refresh sysPlayingVideo [imgOk 5]).2.2 = 0 ∧
      (photo_album_refresh sysPlayingVideo [imgOk 5]).2.1.displayedImage =
        sysPlayingVideo.displayedImage) ∧
    photo_album_is_paused (load_and_display_media (sysOn [vidOk 0, imgOk 1]) 0).2.1 = true :=
  ⟨⟨((c10_is_paused_tracks_controller.2.1 sysPlayingVideo [imgOk 5] (by decide)
        (by decide)).2.1),
    ((c10_is_paused_tracks_controller.2.1 sysPlayingVideo [imgOk 5] (by decide)
        (by decide)).2.2.1)⟩,
   c10_is_paused_tracks_controller.2.2 (sysOn [vidOk 0, imgOk 1]) 0 (vidOk 0) (by decide)
     (by decide) (by decide) (by decide) (by decide) (by decide) (by decide)⟩

/-! ## C3: USB pause and the leftover completion timer -/

/-- The playing-video system after the USB-connect handler runs: the handler
pauses the video (`video_player_pause`) and then calls
`photo_album_pause_for_usb` — but the video completion timer stays armed. -/
def sysUsbHold : Sys :=
  (photo_album_pause_for_usb
    { sysPlayingVideo with vp := (video_player_pause sysPlayingVideo.vp).2 }).2

/-- C3: evaluation at the failing scenario. After `pause(ExternalDeviceHold)`
(USB connect during video playback: video paused, slideshow stopped, reason
USB) the video completion timer is still armed; when it expires — mere passage
of time, no resume call — its callback restarts the periodic slideshow timer
and advances the album while the USB hold is still in force, contradicting
"never auto-resumes" (and the header comment "USB-specific pause (no
auto-resume)"). -/
theorem c3_usb_hold_finish_timer_restarts_slideshow :
    sysUsbHold.pauseReason = .usb ∧
    photo_album_is_paused sysUsbHold = true ∧
    sysUsbHold.ss.is_running = false ∧
    sysUsbHold.ss.periodicCount = 0 ∧
    sysUsbHold.vp.finishArmed = true ∧
    (finish_fire sysUsbHold).ss.is_running = true ∧
    (finish_fire sysUsbHold).ss.periodicCount = 1 ∧
    (finish_fire sysUsbHold).pauseReason = .usb ∧
    (finish_fire sysUsbHold).current_index = 1 := by
  decide

/-! ## C4: completion timer -/

theorem slideshow_ctrl_start_stopped (ss : SlideshowSt) (h : ss.is_running = false) :
    (slideshow_ctrl_start ss).2 =
      { ss with is_running := true, manual_control := false,
                periodicCount := ss.periodicCount + 1 } := by
  unfold slideshow_ctrl_start
  rw [h]
  simp

theorem photo_album_next_image_entry (s : Sys)
    (hinit : s.initialized = true) (hv : s.vp.inited = true) (hn : 0 < s.files.length)
    (e : MediaEntry)
    (hget : s.files.get? ((s.current_index + 1) % s.files.length) = some e)
    (hgood : goodImage e) (hrun : s.ss.is_running = true) :
    (photo_album_next s).1 = .ok ∧
    (photo_album_next s).2.1.current_index = (s.current_index + 1) % s.files.length ∧
    (photo_album_next s).2.1.ss = s.ss := by
  unfold photo_album_next
  have hg : (!s.initialized || decide (s.files.length = 0)) = false := by
    rw [hinit]
    simp only [Bool.not_true, Bool.false_or, decide_eq_false_iff_not]
    omega
  rw [hg]
  simp only [Bool.false_eq_true, if_false]
  have hidx : (s.current_index + 1) % s.files.length < s.files.length := Nat.mod_lt _ hn
  by_cases hpp : (video_player_get_state s.vp = VideoState.playing ∨
      video_player_get_state s.vp = VideoState.paused)
  · rw [if_pos hpp]
    have hstate : s.vp.state ≠ VideoState.stopped := by
      rcases hpp with h | h <;> simp only [video_player_get_state] at h <;> simp [h]
    have hsp := video_player_stop_spec s.vp hv hstate
    have hvi : (video_player_stop s.vp).2.inited = true := by
      rw [hsp]
      exact hv
    have hst1 : (video_player_stop s.vp).2.state = VideoState.stopped := by rw [hsp]
    have hnp1 : (video_player_stop s.vp).2.state ≠ VideoState.playing := by
      rw [hst1]
      simp
    have hnpp1 : (video_player_stop s.vp).2.state ≠ VideoState.paused := by
      rw [hst1]
      simp
    have hm := load_and_display_media_good
      { s with uiMode := UiMode.image, vp := (video_player_stop s.vp).2 }
      ((s.current_index + 1) % s.files.length) e hget (Or.inl hgood) hvi hnp1 hnpp1 hidx
    exact ⟨hm.1, hm.2.1, hm.2.2.2.2.2.1 hgood.1 hrun⟩
  · rw [if_neg hpp]
    have hnp : s.vp.state ≠ VideoState.playing := fun hc => hpp (Or.inl hc)
    have hnpp : s.vp.state ≠ VideoState.paused := fun hc => hpp (Or.inr hc)
    have hm := load_and_display_media_good s ((s.current_index + 1) % s.files.length) e
      hget (Or.inl hgood) hv hnp hnpp hidx
    exact ⟨hm.1, hm.2.1, hm.2.2.2.2.2.1 hgood.1 hrun⟩

/-- C4: the completion timer is armed at `play`/`switch` for the
container-reported duration plus the fixed 500 ms margin, and only when a
nonzero duration is known; when it expires, its callback restarts the
slideshow timer and advances the navigator to the next entry. -/
theorem c4_completion_timer :
    (∀ (v : VP) (env : VidEnv), v.inited = true → env.extractorStart = .ok →
      env.taskCreateOk = true → env.infoOk = true → 0 < env.duration →
      (video_player_play v env).1 = .ok ∧
      (video_player_play v env).2.finishArmed = true ∧
      (video_player_play v env).2.finishDue = env.duration + 500) ∧
    (∀ (v : VP) (env : VidEnv), v.inited = true → env.extractorStart = .ok →
      env.taskCreateOk = true → (env.infoOk = false ∨ env.duration = 0) →
      (video_player_play v env).1 = .ok ∧
      (video_player_play v env).2.finishArmed = v.finishArmed) ∧
    (∀ (v : VP) (env : VidEnv), v.inited = true → env.extractorStart = .ok →
      env.taskCreateOk = true →
      (env.infoOk = true → 0 < env.duration →
        (video_player_switch_file v false env).2.finishArmed = true ∧
        (video_player_switch_file v false env).2.finishDue = env.duration + 500) ∧
      ((env.infoOk = false ∨ env.duration = 0) →
        (video_player_switch_file v false env).2.finishArmed = false)) ∧
    (∀ (s : Sys) (e : MediaEntry), s.initialized = true → s.vp.inited = true →
      s.vp.finishArmed = true → s.ss.is_running = false → s.ss.periodicCount = 0 →
      0 < s.files.length →
      s.files.get? ((s.current_index + 1) % s.files.length) = some e → goodImage e →
      (finish_fire s).ss.is_running = true ∧
      (finish_fire s).ss.periodicCount = 1 ∧
      (finish_fire s).current_index = (s.current_index + 1) % s.files.length) := by
  refine ⟨?_, ?_, ?_, ?_⟩
  · intro v env hv he ht hi hd
    have h := video_player_play_arming v env hv he ht hi hd
    exact ⟨h.1, h.2.2.1, h.2.2.2⟩
  · intro v env hv he ht hnd
    exact video_player_play_no_arming v env hv he ht hnd
  · intro v env hv he ht
    have h := video_player_switch_ok v env hv he ht
    exact ⟨h.2.2.2.1, h.2.2.2.2⟩
  · intro s e hinit hv harm hrun hpc hn hget hgood
    unfold finish_fire
    rw [harm]
    simp only [if_true]
    unfold video_finish_timer_cb
    have hstart := slideshow_ctrl_start_stopped s.ss hrun
    have hm := photo_album_next_image_entry
      { s with vp := { s.vp with finishArmed := false },
               ss := (slideshow_ctrl_start s.ss).2 }
      hinit hv hn e hget hgood (by rw [hstart])
    refine ⟨?_, ?_, ?_⟩
    · rw [hm.2.2, hstart]
    · rw [hm.2.2, hstart]
      show s.ss.periodicCount + 1 = 1
      rw [hpc]
    · exact hm.2.1

/-- Witness for C4: arming at a concrete play (3000 ms duration → 3500 ms
timer) and expiry on the concrete playing system (slideshow restarted, album
advanced to entry 1). -/
theorem c4_completion_timer_witness :
    ((video_player_play vp0 goodEnv).2.finishArmed = true ∧
      (video_player_play vp0 goodEnv).2.finishDue = goodEnv.duration + 500) ∧
    ((finish_fire sysPlayingVideo).ss.is_running = true ∧
      (finish_fire sysPlayingVideo).ss.periodicCount = 1 ∧
      (finish_fire sysPlayingVideo).current_index =
        (sysPlayingVideo.current_index + 1) % sysPlayingVideo.files.length) :=
  ⟨⟨(c4_completion_timer.1 vp0 goodEnv rfl rfl rfl rfl (by decide)).2.1,
    (c4_completion_timer.1 vp0 goodEnv rfl rfl rfl rfl (by decide)).2.2⟩,
   c4_completion_timer.2.2.2 sysPlayingVideo (imgOk 1) (by decide) (by decide) (by decide)
     (by decide) (by decide) (by decide) (by decide) (by decide)⟩

end Album
